import Mathlib

/-!
Verification of the settings-persistence core of the wuw application
(`wuw/gui/mainapp.py`, `wuw/gui/mainwindow.py`), as a shallow embedding.

External collaborators (the Qt toolkit, the OS file system, the JSON
serializer `json.dumps`/`json.loads`) are modelled by parameters or by
explicit contracts; all the application logic (marshalling,
unmarshalling, the backup-on-version-change rule, the save-once flag) is
translated directly from the Python source.
-/

/-! ### Constants from `wuw/be/info.py` -/

/-- Constant `VERSION` from `wuw/be/info.py`. -/
def VERSION : String := "0.1.0"

/-- Constant `PROJECT_NAME` from `wuw/be/info.py`. -/
def PROJECT_NAME : String := "Word under water"

/-- Constant `DEFAULT_FILE_DIR = homeDirectory()` from `wuw/gui/mainwindow.py`.
`homeDirectory()` is `os.path.expanduser("~")`, an environment-dependent
external value; the claims never depend on its contents, so it is
modelled by the opaque constant `"~"`. -/
def DEFAULT_FILE_DIR : String := "~"

/-! ### Model of Python's `base64.b64encode` / `base64.b64decode`

`wuw/gui/mainwindow.py` encodes the window geometry/state blobs with
`base64.b64encode(...).decode('ascii')` and decodes them with
`base64.b64decode(...)` (default `validate=False`: characters outside
the alphabet are discarded, and decoding raises `binascii.Error` when
the number of remaining characters is not a multiple of four or the
padding is misplaced).  Bytes are modelled as `Nat` values below 256. -/

/-- The standard base64 alphabet. -/
def b64Alphabet : List Char :=
  ['A', 'B', 'C', 'D', 'E', 'F', 'G', 'H', 'I', 'J', 'K', 'L', 'M',
   'N', 'O', 'P', 'Q', 'R', 'S', 'T', 'U', 'V', 'W', 'X', 'Y', 'Z',
   'a', 'b', 'c', 'd', 'e', 'f', 'g', 'h', 'i', 'j', 'k', 'l', 'm',
   'n', 'o', 'p', 'q', 'r', 's', 't', 'u', 'v', 'w', 'x', 'y', 'z',
   '0', '1', '2', '3', '4', '5', '6', '7', '8', '9', '+', '/']

/-- The alphabet character for a 6-bit group. -/
def b64Char (n : Nat) : Char := b64Alphabet.getD n 'A'

/-- The 6-bit value of an alphabet character (`none` for characters
outside the alphabet, in particular for `'='`). -/
def b64Index (c : Char) : Option Nat := b64Alphabet.findIdx? (· = c)

/-- Encode bytes three at a time, emitting four alphabet characters per
group and `'='` padding for a final group of one or two bytes. -/
def b64EncodeChunks : List Nat → List Char
  | [] => []
  | [b1] =>
      let n := b1 % 256 * 65536
      [b64Char (n / 262144), b64Char (n / 4096 % 64), '=', '=']
  | [b1, b2] =>
      let n := b1 % 256 * 65536 + b2 % 256 * 256
      [b64Char (n / 262144), b64Char (n / 4096 % 64), b64Char (n / 64 % 64), '=']
  | b1 :: b2 :: b3 :: rest =>
      let n := b1 % 256 * 65536 + b2 % 256 * 256 + b3 % 256
      b64Char (n / 262144) :: b64Char (n / 4096 % 64) :: b64Char (n / 64 % 64) ::
        b64Char (n % 64) :: b64EncodeChunks rest

/-- Model of `base64.b64encode(bytes).decode('ascii')`. -/
def b64encode (bs : List Nat) : String := String.mk (b64EncodeChunks bs)

/-- Decode one group of four characters.  `isLast` tells whether this is
the final group, the only place `'='` padding is legal. -/
def b64DecodeChunk (c1 c2 c3 c4 : Char) (isLast : Bool) : Except String (List Nat) :=
  match b64Index c1, b64Index c2 with
  | some i1, some i2 =>
    if c3 = '=' then
      if c4 = '=' ∧ isLast then Except.ok [i1 * 4 + i2 / 16]
      else Except.error "Invalid base64-encoded string"
    else
      match b64Index c3 with
      | some i3 =>
        if c4 = '=' then
          if isLast then Except.ok [i1 * 4 + i2 / 16, i2 % 16 * 16 + i3 / 4]
          else Except.error "Invalid base64-encoded string"
        else
          match b64Index c4 with
          | some i4 =>
              Except.ok [i1 * 4 + i2 / 16, i2 % 16 * 16 + i3 / 4, i3 % 4 * 64 + i4]
          | none => Except.error "Invalid base64-encoded string"
      | none => Except.error "Invalid base64-encoded string"
  | _, _ => Except.error "Invalid base64-encoded string"

/-- Decode a stream of filtered characters, four at a time. -/
def b64DecodeChunks : List Char → Except String (List Nat)
  | [] => Except.ok []
  | c1 :: c2 :: c3 :: c4 :: rest =>
      match b64DecodeChunk c1 c2 c3 c4 rest.isEmpty, b64DecodeChunks rest with
      | Except.ok bs, Except.ok bs' => Except.ok (bs ++ bs')
      | Except.error e, _ => Except.error e
      | _, Except.error e => Except.error e
  | _ => Except.error "Incorrect padding"

/-- Model of `base64.b64decode(s)` (with the default `validate=False`):
characters outside the alphabet and the padding character are discarded,
then the remaining characters are decoded in groups of four; a stream
whose length is not a multiple of four raises `binascii.Error`
("Incorrect padding"). -/
def b64decode (s : String) : Except String (List Nat) :=
  let cs := s.data.filter (fun c => (b64Index c).isSome || c = '=')
  if cs.length % 4 = 0 then b64DecodeChunks cs
  else Except.error "Incorrect padding"

/-- Model of Python's `str.startswith`, used by the assertion in
`MainApp.unmarshall`. -/
def strStartsWith (s pre : String) : Bool := pre.data.isPrefixOf s.data

/-! ### Data model: the persisted configuration record

`json.loads` of the settings file produces a dict; the application reads
the keys `_program`, `_version`, `recent_files` and `windows`
(`wuw/gui/mainapp.py`) and, per window, `layout` with `winGeom` /
`winState` and `fileDialogDir` (`wuw/gui/mainwindow.py`).  The record is
modelled structurally with `Option` marking absent keys; the `windows`
value is an association list in the dict's insertion order. -/

/-- One entry of `_recentFiles`: `[timeStamp, fileName]`. -/
structure RecentEntry where
  timeStamp : String
  fileName : String
deriving Repr, DecidableEq

/-- The `layout` sub-dict of a persisted window record. -/
structure LayoutCfg where
  winGeom : Option String
  winState : Option String
deriving Repr, DecidableEq

/-- A persisted window record (value of a `win-<N>` key). -/
structure WinCfg where
  layout : Option LayoutCfg
  fileDialogDir : Option String
deriving Repr, DecidableEq

/-- Python dict truthiness of a window record: `if cfg:` in
`MainApp.addNewMainWindow` — true iff the dict is non-empty. -/
def WinCfg.isTruthy (c : WinCfg) : Bool := c.layout.isSome || c.fileDialogDir.isSome

/-- The top-level persisted configuration record. -/
structure Cfg where
  program : Option String
  version : Option String
  recentFiles : Option (List RecentEntry)
  windows : Option (List (String × WinCfg))
deriving Repr, DecidableEq

/-- The empty dict `{}`. -/
def Cfg.empty : Cfg := ⟨none, none, none, none⟩

/-- Python dict truthiness of the record: `if not cfg:` in
`MainApp._makeConfigBackup` — true iff the dict is non-empty. -/
def Cfg.isTruthy (c : Cfg) : Bool :=
  c.program.isSome || c.version.isSome || c.recentFiles.isSome || c.windows.isSome

/-! ### WindowState: `MainWindow` from `wuw/gui/mainwindow.py`

Only the persistable slice of a window is modelled: its instance number
(`_windowNumber`, taken from the class counter `BaseWindow.__numInstances`),
the opaque geometry/state byte blobs (captured by `getWidgetGeom` /
`getWidgetState` and restored by `restoreGeometry` / `restoreState`,
which are toolkit primitives treated as an opaque field here), and
`_fileDialogDir`. -/

structure MainWindow where
  windowNumber : Nat
  geomBlob : List Nat
  stateBlob : List Nat
  fileDialogDir : String
deriving Repr, DecidableEq

/-- A freshly constructed window: the toolkit's default geometry/state
(opaque, modelled as `[]`) and `_fileDialogDir = DEFAULT_FILE_DIR`. -/
def MainWindow.new (windowNumber : Nat) : MainWindow :=
  { windowNumber := windowNumber, geomBlob := [], stateBlob := [],
    fileDialogDir := DEFAULT_FILE_DIR }

/-- Model of `BaseWindow.marshall` plus `MainWindow.marshall`: the layout blobs
base64-encoded, plus `fileDialogDir`. -/
def MainWindow.marshall (w : MainWindow) : WinCfg :=
  { layout := some { winGeom := some (b64encode w.geomBlob)
                   , winState := some (b64encode w.stateBlob) }
  , fileDialogDir := some w.fileDialogDir }

/-- The statement `if 'winGeom' in layoutCfg: self.restoreGeometry(
base64.b64decode(layoutCfg['winGeom']))` of `BaseWindow.unmarshall`.
No exception handler surrounds it: a decode failure propagates. -/
def MainWindow.restoreGeomStep (w : MainWindow) (layoutCfg : LayoutCfg) :
    Except String MainWindow :=
  match layoutCfg.winGeom with
  | some s =>
      match b64decode s with
      | Except.ok bs => Except.ok { w with geomBlob := bs }
      | Except.error e => Except.error e
  | none => Except.ok w

/-- The corresponding `winState` statement of `BaseWindow.unmarshall`. -/
def MainWindow.restoreStateStep (w : MainWindow) (layoutCfg : LayoutCfg) :
    Except String MainWindow :=
  match layoutCfg.winState with
  | some s =>
      match b64decode s with
      | Except.ok bs => Except.ok { w with stateBlob := bs }
      | Except.error e => Except.error e
  | none => Except.ok w

/-- Model of `BaseWindow.unmarshall` followed by the `MainWindow.unmarshall`
override: `layoutCfg = cfg.get('layout', {})`, restore geometry then
state (each only when its key is present), then
`self._fileDialogDir = cfg.get('fileDialogDir', DEFAULT_FILE_DIR)`. -/
def MainWindow.unmarshall (w : MainWindow) (cfg : WinCfg) : Except String MainWindow :=
  let layoutCfg := cfg.layout.getD ⟨none, none⟩
  match w.restoreGeomStep layoutCfg with
  | Except.error e => Except.error e
  | Except.ok w1 =>
      match w1.restoreStateStep layoutCfg with
      | Except.error e => Except.error e
      | Except.ok w2 =>
          Except.ok { w2 with fileDialogDir := cfg.fileDialogDir.getD DEFAULT_FILE_DIR }

/-! ### ApplicationState: `MainApp` from `wuw/gui/mainapp.py` -/

/-- The persistent-state-relevant fields of the `MainApp` singleton.
`settingsFile` is the result of `userConfirmedSettingsFile` (an external
dialog/path computation): `none` models the user declining to create the
file.  `numInstances` is the class counter `BaseWindow.__numInstances`. -/
structure MainApp where
  settingsFile : Option String
  mainWindows : List MainWindow
  settingsSaved : Bool
  recentFiles : List RecentEntry
  maxRecentFiles : Nat
  numInstances : Nat
deriving Repr, DecidableEq

/-- Model of `MainApp.__init__`: empty window list, `_settingsSaved = False`,
`_recentFiles = []`, `_maxRecentFiles = 10`, no window constructed yet. -/
def MainApp.init (settingsFile : Option String) : MainApp :=
  { settingsFile := settingsFile, mainWindows := [], settingsSaved := false,
    recentFiles := [], maxRecentFiles := 10, numInstances := 0 }

/-- Model of `MainApp.addNewMainWindow`: construct a `MainWindow` (which takes the
next instance number), then `if cfg: mainWindow.unmarshall(cfg)`, and
register it in the window list.  In the source the window is appended
before `unmarshall` runs, but when `unmarshall` raises, the exception
propagates out of `loadSettings`, so the partially updated state is
never observed; the model therefore appends after a successful
`unmarshall`. -/
def MainApp.addNewMainWindow (app : MainApp) (cfg : Option WinCfg) :
    Except String MainApp :=
  let w0 := MainWindow.new app.numInstances
  let res := match cfg with
    | some c => if c.isTruthy then w0.unmarshall c else Except.ok w0
    | none => Except.ok w0
  match res with
  | Except.ok w =>
      Except.ok { app with numInstances := app.numInstances + 1,
                           mainWindows := app.mainWindows ++ [w] }
  | Except.error e => Except.error e

/-- Model of `MainApp.removeMainWindow`: drop the window from the list (no
renumbering, no save). -/
def MainApp.removeMainWindow (app : MainApp) (w : MainWindow) : MainApp :=
  { app with mainWindows := app.mainWindows.erase w }

/-- The loop `for winNr, mainWindow in enumerate(self.mainWindows)` of
`MainApp.marshall`: keys `"win-<winNr>"` by position in the list. -/
def MainApp.marshallWindows : Nat → List MainWindow → List (String × WinCfg)
  | _, [] => []
  | winNr, w :: rest =>
      ("win-" ++ toString winNr, w.marshall) :: MainApp.marshallWindows (winNr + 1) rest

/-- Model of `MainApp.marshall`: `_program`, `_version`, `recent_files` and one
window record per open window, keyed by list position. -/
def MainApp.marshall (app : MainApp) : Cfg :=
  { program := some PROJECT_NAME
  , version := some VERSION
  , recentFiles := some app.recentFiles
  , windows := some (MainApp.marshallWindows 0 app.mainWindows) }

/-- The window loop of `MainApp.unmarshall`:
`assert winId.startswith('win-')` (an `AssertionError` propagates), then
`self.addNewMainWindow(cfg=winCfg)`, per entry in insertion order. -/
def MainApp.unmarshallWindows : MainApp → List (String × WinCfg) → Except String MainApp
  | app, [] => Except.ok app
  | app, (winId, winCfg) :: rest =>
      if strStartsWith winId "win-" then
        match app.addNewMainWindow (some winCfg) with
        | Except.ok app' => MainApp.unmarshallWindows app' rest
        | Except.error e => Except.error e
      else Except.error ("Win ID doesn't start with 'win-': " ++ winId)

/-- Model of `MainApp.unmarshall`: restore `_recentFiles`, create a window per
entry of `cfg.get('windows', {})`, and create one default window when
the resulting window list is empty. -/
def MainApp.unmarshall (app : MainApp) (cfg : Cfg) : Except String MainApp :=
  let app1 := { app with recentFiles := cfg.recentFiles.getD [] }
  match app1.unmarshallWindows (cfg.windows.getD []) with
  | Except.error e => Except.error e
  | Except.ok app2 =>
      if app2.mainWindows.length = 0 then app2.addNewMainWindow none
      else Except.ok app2

/-- A backup copy made by `shutil.copy2`: destination path and the
copied content (`shutil.copy2` copies the file byte-for-byte). -/
structure BackupAction where
  path : String
  content : String
deriving Repr, DecidableEq

/-- Model of `MainApp._makeConfigBackup`: nothing for an empty record
(`if not cfg: return cfg`); otherwise, when
`cfg.get('_version', '0.0.1')` differs from the running `VERSION`, copy
the settings file (whose current content is `fileContent`) to
`"<settingsFile>.v<cfgVersion>.backup"`.  The record is returned
unchanged in every path. -/
def MainApp.makeConfigBackup (settingsFile : String) (fileContent : String)
    (cfg : Cfg) : Cfg × Option BackupAction :=
  if ¬ cfg.isTruthy then (cfg, none)
  else
    let cfgVersion := cfg.version.getD "0.0.1"
    if cfgVersion ≠ VERSION then
      (cfg, some ⟨settingsFile ++ ".v" ++ cfgVersion ++ ".backup", fileContent⟩)
    else (cfg, none)

/-- Model of `MainApp.loadSettings`.  The file system is modelled by
`fileContent` (`none` when the settings file does not exist) and
`json.loads` by the `parseJson` parameter.  The source first evaluates
`os.path.exists` (a `TypeError` when the path is `None`), logs a warning
when the file is absent — and then opens the file anyway: the
`FileNotFoundError` is caught by the surrounding handler, logged, and
re-raised, exactly like a JSON parse error.  An empty file yields the
empty record.  The second component of the result is the backup made by
`_makeConfigBackup`. -/
def MainApp.loadSettings (app : MainApp) (fileContent : Option String)
    (parseJson : String → Except String Cfg) :
    Except String (MainApp × Option BackupAction) :=
  match app.settingsFile with
  | none => Except.error "TypeError"
  | some settingsFile =>
      match fileContent with
      | none => Except.error "FileNotFoundError"
      | some jsonStr =>
          match (if jsonStr ≠ "" then parseJson jsonStr else Except.ok Cfg.empty) with
          | Except.error e => Except.error e
          | Except.ok cfg0 =>
              let res := MainApp.makeConfigBackup settingsFile jsonStr cfg0
              match app.unmarshall res.1 with
              | Except.ok app' => Except.ok (app', res.2)
              | Except.error e => Except.error e

/-- What a `saveSettings` call did. -/
inductive SaveOutcome where
  | noFile
  | written (path content : String)
  | failed (msg : String)
deriving Repr, DecidableEq

/-- Model of `MainApp.saveSettings`.  Here `dumps` models
`json.dumps(·, sort_keys=True, indent=4)` (which raises on
non-serializable values) and `write` models writing the file.  Failures
are logged and swallowed unless `DEBUGGING` is set, in which case they
re-raise (the `Except.error` component); the `finally` block sets
`_settingsSaved = True` in every path, including the re-raising ones. -/
def MainApp.saveSettings (app : MainApp) (debugging : Bool)
    (dumps : Cfg → Except String String) (write : String → String → Except String Unit) :
    MainApp × Except String SaveOutcome :=
  let outcome : Except String SaveOutcome :=
    match app.settingsFile with
    | none => Except.ok SaveOutcome.noFile
    | some path =>
        match dumps app.marshall with
        | Except.error e =>
            if debugging then Except.error e else Except.ok (SaveOutcome.failed e)
        | Except.ok jsonStr =>
            match write path jsonStr with
            | Except.error e =>
                if debugging then Except.error e else Except.ok (SaveOutcome.failed e)
            | Except.ok _ => Except.ok (SaveOutcome.written path jsonStr)
  ({ app with settingsSaved := true }, outcome)

/-- Model of `MainApp.saveSettingsIfLastWindow`: save only when the settings have
not been saved yet and at most one window remains. -/
def MainApp.saveSettingsIfLastWindow (app : MainApp) (debugging : Bool)
    (dumps : Cfg → Except String String) (write : String → String → Except String Unit) :
    MainApp × Except String (Option SaveOutcome) :=
  if ¬ app.settingsSaved ∧ app.mainWindows.length ≤ 1 then
    let res := app.saveSettings debugging dumps write
    (res.1, res.2.map some)
  else (app, Except.ok none)

/-- Modelled from the spec: `addToRecentFiles` is absent from the
source — its only call site, in `MainWindow.openFileWithDialog`, is
commented out, and only the fields `_recentFiles` / `_maxRecentFiles`
exist.  Spec: the recent-files list is an "ordered sequence of
(timestamp, path) — insertion order = recency order, bounded to a
maximum count (10)", with "oldest entries ... evicted first (FIFO by
recency, most-recent-first ordering maintained on insert)". -/
def MainApp.addToRecentFiles (app : MainApp) (entry : RecentEntry) : MainApp :=
  { app with recentFiles := (entry :: app.recentFiles).take app.maxRecentFiles }

/-! ### UI event sequences

The shutdown paths: `BaseWindow.closeEvent` calls
`saveSettingsIfLastWindow`, then `removeMainWindow`; `MainApp.quit`
calls `saveSettings` directly.  A process life is a sequence of these
events on the single control thread. -/

inductive AppOp where
  | addWindow (cfg : Option WinCfg)
  | closeWindow
  | quit

/-- One UI event.  `closeWindow` models `BaseWindow.closeEvent` on the
first open window.  The second component counts the saves performed
inside `saveSettingsIfLastWindow` during this step (0 or 1).  When an
operation raises, the exception is handled by the Qt event loop /
excepthook and the process continues with the state reached so far. -/
def MainApp.runOp (app : MainApp) (debugging : Bool)
    (dumps : Cfg → Except String String) (write : String → String → Except String Unit) :
    AppOp → MainApp × Nat
  | AppOp.addWindow cfg =>
      (match app.addNewMainWindow cfg with
       | Except.ok app' => app'
       | Except.error _ => app, 0)
  | AppOp.closeWindow =>
      match app.mainWindows with
      | [] => (app, 0)
      | w :: _ =>
          let app1 := (app.saveSettingsIfLastWindow debugging dumps write).1
          let saved := if ¬ app.settingsSaved ∧ app.mainWindows.length ≤ 1 then 1 else 0
          (app1.removeMainWindow w, saved)
  | AppOp.quit => ((app.saveSettings debugging dumps write).1, 0)

/-- Run a sequence of UI events, accumulating the number of saves
performed through the last-window-closing path. -/
def MainApp.runOps : MainApp → Bool → (Cfg → Except String String) →
    (String → String → Except String Unit) → List AppOp → MainApp × Nat
  | app, _, _, _, [] => (app, 0)
  | app, debugging, dumps, write, op :: rest =>
      let step := app.runOp debugging dumps write op
      let tail := MainApp.runOps step.1 debugging dumps write rest
      (tail.1, step.2 + tail.2)

/-! ### Base64 round trip -/

theorem b64Index_b64Char_fin : ∀ i : Fin 64, b64Index (b64Char i.1) = some i.1 := by
  decide

theorem b64Index_b64Char {i : Nat} (h : i < 64) : b64Index (b64Char i) = some i :=
  b64Index_b64Char_fin ⟨i, h⟩

theorem b64Char_ne_pad {i : Nat} (h : i < 64) : b64Char i ≠ '=' := by
  intro hc
  have h1 := b64Index_b64Char h
  rw [hc] at h1
  have h2 : b64Index '=' = none := by decide
  rw [h2] at h1
  exact Option.noConfusion h1

theorem mem_b64EncodeChunks_pass (bs : List Nat) :
    ∀ c ∈ b64EncodeChunks bs, ((b64Index c).isSome || c = '=') = true := by
  induction bs using b64EncodeChunks.induct with
  | case1 =>
      intro c hc
      simp [b64EncodeChunks] at hc
  | case2 b1 =>
      intro c hc
      simp only [b64EncodeChunks, List.mem_cons] at hc
      rcases hc with h | h | h | h | h
      · subst h; rw [b64Index_b64Char (by omega)]; rfl
      · subst h; rw [b64Index_b64Char (by omega)]; rfl
      · subst h; decide
      · subst h; decide
      · simp at h
  | case3 b1 b2 =>
      intro c hc
      simp only [b64EncodeChunks, List.mem_cons] at hc
      rcases hc with h | h | h | h | h
      · subst h; rw [b64Index_b64Char (by omega)]; rfl
      · subst h; rw [b64Index_b64Char (by omega)]; rfl
      · subst h; rw [b64Index_b64Char (by omega)]; rfl
      · subst h; decide
      · simp at h
  | case4 b1 b2 b3 rest ih =>
      intro c hc
      simp only [b64EncodeChunks, List.mem_cons] at hc
      rcases hc with h | h | h | h | h
      · subst h; rw [b64Index_b64Char (by omega)]; rfl
      · subst h; rw [b64Index_b64Char (by omega)]; rfl
      · subst h; rw [b64Index_b64Char (by omega)]; rfl
      · subst h; rw [b64Index_b64Char (by omega)]; rfl
      · exact ih c h

theorem length_b64EncodeChunks_mod (bs : List Nat) :
    (b64EncodeChunks bs).length % 4 = 0 := by
  induction bs using b64EncodeChunks.induct with
  | case1 => rfl
  | case2 b1 => simp [b64EncodeChunks]
  | case3 b1 b2 => simp [b64EncodeChunks]
  | case4 b1 b2 b3 rest ih =>
      simp only [b64EncodeChunks, List.length_cons]
      omega

theorem b64DecodeChunks_b64EncodeChunks (bs : List Nat) (h : ∀ b ∈ bs, b < 256) :
    b64DecodeChunks (b64EncodeChunks bs) = Except.ok bs := by
  induction bs using b64EncodeChunks.induct with
  | case1 => rfl
  | case2 b1 =>
      have hb1 : b1 < 256 := h b1 (by simp)
      have hm : b1 % 256 = b1 := Nat.mod_eq_of_lt hb1
      have hi1 : b64Index (b64Char (b1 * 65536 / 262144)) = some (b1 * 65536 / 262144) :=
        b64Index_b64Char (by omega)
      have hi2 : b64Index (b64Char (b1 * 65536 / 4096 % 64)) =
          some (b1 * 65536 / 4096 % 64) := b64Index_b64Char (by omega)
      have e1 : b1 * 65536 / 262144 * 4 + b1 * 65536 / 4096 % 64 / 16 = b1 := by omega
      simp [b64EncodeChunks, b64DecodeChunks, b64DecodeChunk, hm, hi1, hi2, e1]
  | case3 b1 b2 =>
      have hb1 : b1 < 256 := h b1 (by simp)
      have hb2 : b2 < 256 := h b2 (by simp)
      have hm1 : b1 % 256 = b1 := Nat.mod_eq_of_lt hb1
      have hm2 : b2 % 256 = b2 := Nat.mod_eq_of_lt hb2
      have hi1 : b64Index (b64Char ((b1 * 65536 + b2 * 256) / 262144)) =
          some ((b1 * 65536 + b2 * 256) / 262144) := b64Index_b64Char (by omega)
      have hi2 : b64Index (b64Char ((b1 * 65536 + b2 * 256) / 4096 % 64)) =
          some ((b1 * 65536 + b2 * 256) / 4096 % 64) := b64Index_b64Char (by omega)
      have hi3 : b64Index (b64Char ((b1 * 65536 + b2 * 256) / 64 % 64)) =
          some ((b1 * 65536 + b2 * 256) / 64 % 64) := b64Index_b64Char (by omega)
      have hne3 : ¬ b64Char ((b1 * 65536 + b2 * 256) / 64 % 64) = '=' :=
        b64Char_ne_pad (by omega)
      have e1 : (b1 * 65536 + b2 * 256) / 262144 * 4 +
          (b1 * 65536 + b2 * 256) / 4096 % 64 / 16 = b1 := by omega
      have e2 : (b1 * 65536 + b2 * 256) / 4096 % 64 % 16 * 16 +
          (b1 * 65536 + b2 * 256) / 64 % 64 / 4 = b2 := by omega
      simp [b64EncodeChunks, b64DecodeChunks, b64DecodeChunk, hm1, hm2,
        hi1, hi2, hi3, hne3, e1, e2]
  | case4 b1 b2 b3 rest ih =>
      have hb1 : b1 < 256 := h b1 (by simp)
      have hb2 : b2 < 256 := h b2 (by simp)
      have hb3 : b3 < 256 := h b3 (by simp)
      have hm1 : b1 % 256 = b1 := Nat.mod_eq_of_lt hb1
      have hm2 : b2 % 256 = b2 := Nat.mod_eq_of_lt hb2
      have hm3 : b3 % 256 = b3 := Nat.mod_eq_of_lt hb3
      have ih' := ih (fun b hb => h b (by simp [hb]))
      have hi1 : b64Index (b64Char ((b1 * 65536 + b2 * 256 + b3) / 262144)) =
          some ((b1 * 65536 + b2 * 256 + b3) / 262144) := b64Index_b64Char (by omega)
      have hi2 : b64Index (b64Char ((b1 * 65536 + b2 * 256 + b3) / 4096 % 64)) =
          some ((b1 * 65536 + b2 * 256 + b3) / 4096 % 64) := b64Index_b64Char (by omega)
      have hi3 : b64Index (b64Char ((b1 * 65536 + b2 * 256 + b3) / 64 % 64)) =
          some ((b1 * 65536 + b2 * 256 + b3) / 64 % 64) := b64Index_b64Char (by omega)
      have hi4 : b64Index (b64Char ((b1 * 65536 + b2 * 256 + b3) % 64)) =
          some ((b1 * 65536 + b2 * 256 + b3) % 64) := b64Index_b64Char (by omega)
      have hne3 : ¬ b64Char ((b1 * 65536 + b2 * 256 + b3) / 64 % 64) = '=' :=
        b64Char_ne_pad (by omega)
      have hne4 : ¬ b64Char ((b1 * 65536 + b2 * 256 + b3) % 64) = '=' :=
        b64Char_ne_pad (by omega)
      have e1 : (b1 * 65536 + b2 * 256 + b3) / 262144 * 4 +
          (b1 * 65536 + b2 * 256 + b3) / 4096 % 64 / 16 = b1 := by omega
      have e2 : (b1 * 65536 + b2 * 256 + b3) / 4096 % 64 % 16 * 16 +
          (b1 * 65536 + b2 * 256 + b3) / 64 % 64 / 4 = b2 := by omega
      have e3 : (b1 * 65536 + b2 * 256 + b3) / 64 % 64 % 4 * 64 +
          (b1 * 65536 + b2 * 256 + b3) % 64 = b3 := by omega
      simp [b64EncodeChunks, b64DecodeChunks, b64DecodeChunk, hm1, hm2, hm3,
        hi1, hi2, hi3, hi4, hne3, hne4, ih', e1, e2, e3]

theorem b64decode_b64encode (bs : List Nat) (h : ∀ b ∈ bs, b < 256) :
    b64decode (b64encode bs) = Except.ok bs := by
  have hdata : (b64encode bs).data = b64EncodeChunks bs := rfl
  have hfilter : (b64EncodeChunks bs).filter (fun c => (b64Index c).isSome || c = '=') =
      b64EncodeChunks bs :=
    List.filter_eq_self.mpr (mem_b64EncodeChunks_pass bs)
  simp only [b64decode, hdata, hfilter, length_b64EncodeChunks_mod, if_pos rfl]
  exact b64DecodeChunks_b64EncodeChunks bs h

/-! ### Helper lemmas about the application operations -/

theorem strStartsWith_win (s : String) : strStartsWith ("win-" ++ s) "win-" = true := by
  have hdata : ("win-" ++ s).data = "win-".data ++ s.data := String.data_append "win-" s
  simp [strStartsWith, hdata, List.isPrefixOf]


theorem restoreGeomStep_windowNumber {w w' : MainWindow} {lay : LayoutCfg}
    (h : w.restoreGeomStep lay = Except.ok w') : w'.windowNumber = w.windowNumber := by
  cases hg : lay.winGeom with
  | none =>
      simp only [MainWindow.restoreGeomStep, hg, Except.ok.injEq] at h
      cases h; rfl
  | some s =>
      cases hd : b64decode s with
      | ok bs =>
          simp only [MainWindow.restoreGeomStep, hg, hd, Except.ok.injEq] at h
          cases h; rfl
      | error e => simp [MainWindow.restoreGeomStep, hg, hd] at h

theorem restoreStateStep_windowNumber {w w' : MainWindow} {lay : LayoutCfg}
    (h : w.restoreStateStep lay = Except.ok w') : w'.windowNumber = w.windowNumber := by
  cases hg : lay.winState with
  | none =>
      simp only [MainWindow.restoreStateStep, hg, Except.ok.injEq] at h
      cases h; rfl
  | some s =>
      cases hd : b64decode s with
      | ok bs =>
          simp only [MainWindow.restoreStateStep, hg, hd, Except.ok.injEq] at h
          cases h; rfl
      | error e => simp [MainWindow.restoreStateStep, hg, hd] at h

theorem unmarshall_windowNumber {w w' : MainWindow} {cfg : WinCfg}
    (h : w.unmarshall cfg = Except.ok w') : w'.windowNumber = w.windowNumber := by
  cases h1 : w.restoreGeomStep (cfg.layout.getD ⟨none, none⟩) with
  | error e => simp [MainWindow.unmarshall, h1] at h
  | ok w1 =>
      cases h2 : w1.restoreStateStep (cfg.layout.getD ⟨none, none⟩) with
      | error e => simp [MainWindow.unmarshall, h1, h2] at h
      | ok w2 =>
          simp only [MainWindow.unmarshall, h1, h2, Except.ok.injEq] at h
          cases h
          exact (restoreStateStep_windowNumber h2).trans (restoreGeomStep_windowNumber h1)

/-- Adding with no record always succeeds and appends a
fresh default window. -/
theorem addNewMainWindow_none (app : MainApp) :
    app.addNewMainWindow none =
      Except.ok { app with numInstances := app.numInstances + 1,
                           mainWindows := app.mainWindows ++ [MainWindow.new app.numInstances] } :=
  rfl

/-- A successful `addNewMainWindow` appends exactly one window, carrying
the previous instance counter as its number, and leaves all other
fields unchanged. -/
theorem addNewMainWindow_ok {app app' : MainApp} {cfg : Option WinCfg}
    (h : app.addNewMainWindow cfg = Except.ok app') :
    ∃ w, app'.mainWindows = app.mainWindows ++ [w] ∧
      app'.numInstances = app.numInstances + 1 ∧
      app'.settingsFile = app.settingsFile ∧ app'.settingsSaved = app.settingsSaved ∧
      app'.recentFiles = app.recentFiles ∧ app'.maxRecentFiles = app.maxRecentFiles ∧
      w.windowNumber = app.numInstances := by
  cases cfg with
  | none =>
      simp only [MainApp.addNewMainWindow, Except.ok.injEq] at h
      cases h
      exact ⟨MainWindow.new app.numInstances, rfl, rfl, rfl, rfl, rfl, rfl, rfl⟩
  | some c =>
      by_cases ht : c.isTruthy
      · cases hu : (MainWindow.new app.numInstances).unmarshall c with
        | error e => simp [MainApp.addNewMainWindow, ht, hu] at h
        | ok w =>
            simp only [MainApp.addNewMainWindow, ht, hu, if_true, Except.ok.injEq] at h
            cases h
            exact ⟨w, rfl, rfl, rfl, rfl, rfl, rfl, unmarshall_windowNumber hu⟩
      · simp only [MainApp.addNewMainWindow, ht, if_false, Bool.false_eq_true,
          Except.ok.injEq] at h
        cases h
        exact ⟨MainWindow.new app.numInstances, rfl, rfl, rfl, rfl, rfl, rfl, rfl⟩

/-- A successful window loop appends one window per entry and leaves the
non-window fields unchanged. -/
theorem unmarshallWindows_ok {l : List (String × WinCfg)} :
    ∀ {app app' : MainApp}, MainApp.unmarshallWindows app l = Except.ok app' →
    app'.settingsFile = app.settingsFile ∧ app'.settingsSaved = app.settingsSaved ∧
    app'.recentFiles = app.recentFiles ∧ app'.maxRecentFiles = app.maxRecentFiles ∧
    app'.mainWindows.length = app.mainWindows.length + l.length := by
  induction l with
  | nil =>
      intro app app' h
      cases Except.ok.inj h
      exact ⟨rfl, rfl, rfl, rfl, rfl⟩
  | cons p rest ih =>
      intro app app' h
      obtain ⟨winId, winCfg⟩ := p
      by_cases hs : strStartsWith winId "win-"
      · cases ha : app.addNewMainWindow (some winCfg) with
        | error e => simp [MainApp.unmarshallWindows, hs, ha] at h
        | ok app1 =>
            simp only [MainApp.unmarshallWindows, hs, ha, if_true] at h
            obtain ⟨w, hw1, hw2, hw3, hw4, hw5, hw6, _⟩ := addNewMainWindow_ok ha
            obtain ⟨h1, h2, h3, h4, h5⟩ := ih h
            refine ⟨h1.trans hw3, h2.trans hw4, h3.trans hw5, h4.trans hw6, ?_⟩
            rw [h5, hw1]
            simp only [List.length_append, List.length_cons, List.length_nil]
            omega
      · simp [MainApp.unmarshallWindows, hs] at h

/-! ### Valid records and the marshall/unmarshall round trip -/

/-- A complete persisted window record, as the application itself writes
it: both layout blobs present in canonical base64 form, and
`fileDialogDir` present. -/
def validWinCfg (c : WinCfg) : Prop :=
  ∃ gb sb d, (∀ b ∈ gb, b < 256) ∧ (∀ b ∈ sb, b < 256) ∧
    c = ⟨some ⟨some (b64encode gb), some (b64encode sb)⟩, some d⟩

/-- A valid top-level record, per the data-model invariants: the program
name of this application, a recent-files list, and a non-empty windows
mapping whose i-th key is `win-<i>` and whose values are complete window
records. -/
def validCfg (R : Cfg) : Prop :=
  R.program = some PROJECT_NAME ∧ R.recentFiles.isSome ∧
  ∃ ws, R.windows = some ws ∧ ws ≠ [] ∧
    (∀ i (hi : i < ws.length), (ws.get ⟨i, hi⟩).1 = "win-" ++ toString i) ∧
    ∀ p ∈ ws, validWinCfg p.2

/-- Restoring a fresh window from a complete record and marshalling it
back reproduces the record. -/
theorem unmarshall_marshall_valid {c : WinCfg} (hv : validWinCfg c) (n : Nat) :
    c.isTruthy = true ∧
    ∃ w, (MainWindow.new n).unmarshall c = Except.ok w ∧ w.marshall = c ∧
      w.windowNumber = n := by
  obtain ⟨gb, sb, d, hgb, hsb, rfl⟩ := hv
  have hg := b64decode_b64encode gb hgb
  have hs := b64decode_b64encode sb hsb
  refine ⟨rfl, ⟨n, gb, sb, d⟩, ?_, rfl, rfl⟩
  simp only [MainWindow.unmarshall, MainWindow.restoreGeomStep, MainWindow.restoreStateStep,
    Option.getD_some, hg, hs]
  rfl

theorem marshallWindows_length : ∀ (k : Nat) (l : List MainWindow),
    (MainApp.marshallWindows k l).length = l.length := by
  intro k l
  induction l generalizing k with
  | nil => rfl
  | cons w rest ih => simp [MainApp.marshallWindows, ih]

/-- Core of the round trip: unmarshalling a list of valid window records
whose i-th key is `win-<k+i>` appends one window per record, and
marshalling the appended windows starting at index `k` reproduces the
records exactly. -/
theorem unmarshallWindows_valid :
    ∀ (ws : List (String × WinCfg)) (app : MainApp) (k : Nat),
    (∀ p ∈ ws, validWinCfg p.2) →
    (∀ i (hi : i < ws.length), (ws.get ⟨i, hi⟩).1 = "win-" ++ toString (k + i)) →
    ∃ newWins, MainApp.unmarshallWindows app ws = Except.ok
        { app with mainWindows := app.mainWindows ++ newWins,
                   numInstances := app.numInstances + ws.length } ∧
      MainApp.marshallWindows k newWins = ws := by
  intro ws
  induction ws with
  | nil =>
      intro app k _ _
      refine ⟨[], ?_, rfl⟩
      simp [MainApp.unmarshallWindows]
  | cons p rest ih =>
      intro app k hvalid hkeys
      obtain ⟨winId, c⟩ := p
      have hkey0 : winId = "win-" ++ toString k := by
        have := hkeys 0 (by simp)
        simpa using this
      have hc : validWinCfg c := hvalid (winId, c) (by simp)
      obtain ⟨ht, w, hu, hmar, _⟩ := unmarshall_marshall_valid hc app.numInstances
      have hstart : strStartsWith winId "win-" = true := by
        rw [hkey0]; exact strStartsWith_win (toString k)
      have hadd : app.addNewMainWindow (some c) =
          Except.ok { app with numInstances := app.numInstances + 1,
                               mainWindows := app.mainWindows ++ [w] } := by
        simp [MainApp.addNewMainWindow, ht, hu]
      obtain ⟨newWins', hrec, hmars⟩ := ih
        { app with numInstances := app.numInstances + 1,
                   mainWindows := app.mainWindows ++ [w] } (k + 1)
        (fun q hq => hvalid q (by simp [hq]))
        (by
          intro i hi
          have hi' : i + 1 < ((winId, c) :: rest).length := by
            simp only [List.length_cons]; omega
          have := hkeys (i + 1) hi'
          have harg : k + (i + 1) = k + 1 + i := by omega
          simpa [harg] using this)
      refine ⟨w :: newWins', ?_, ?_⟩
      · simp only [MainApp.unmarshallWindows, hstart, if_true, hadd, hrec]
        congr 1
        simp only [MainApp.mk.injEq, List.append_assoc, List.singleton_append,
          List.length_cons, true_and, and_true]
        omega
      · simp only [MainApp.marshallWindows, hmars, hmar, hkey0]

/-- Unmarshalling a valid record from a fresh application succeeds, and
marshalling the resulting state reproduces the record in every field
except the version stamp (overwritten with the running `VERSION`) — and
the program name, which validity pins to `PROJECT_NAME` already. -/
theorem unmarshall_valid (R : Cfg) (sf : Option String) (hv : validCfg R) :
    ∃ app1, (MainApp.init sf).unmarshall R = Except.ok app1 ∧
      app1.marshall = ⟨some PROJECT_NAME, some VERSION, R.recentFiles, R.windows⟩ ∧
      app1.settingsFile = sf := by
  obtain ⟨hprog, hrf, ws, hws, hne, hkeys, hvalid⟩ := hv
  obtain ⟨rf, hrf'⟩ := Option.isSome_iff_exists.mp hrf
  obtain ⟨newWins, hrec, hmars⟩ := unmarshallWindows_valid ws
    { MainApp.init sf with recentFiles := R.recentFiles.getD [] } 0 hvalid
    (by
      intro i hi
      have := hkeys i hi
      simpa using this)
  have hlen : newWins.length = ws.length := by
    rw [← marshallWindows_length 0 newWins, hmars]
  have hlenne : newWins.length ≠ 0 := by
    rw [hlen]
    intro h0
    exact hne (List.length_eq_zero.mp h0)
  refine ⟨{ MainApp.init sf with
            recentFiles := R.recentFiles.getD []
            mainWindows := newWins
            numInstances := ws.length }, ?_, ?_, rfl⟩
  · simp only [MainApp.unmarshall, hws, Option.getD_some, hrec]
    simp only [MainApp.init, List.nil_append, List.length_nil, Nat.zero_add]
    rw [if_neg hlenne]
  · simp only [MainApp.marshall, hmars, hws, hrf', Option.getD_some, Cfg.mk.injEq]

/-- A successful `unmarshall` always leaves at least one window. -/
theorem unmarshall_ok_nonempty {app app' : MainApp} {cfg : Cfg}
    (h : app.unmarshall cfg = Except.ok app') : 1 ≤ app'.mainWindows.length := by
  cases hw : MainApp.unmarshallWindows { app with recentFiles := cfg.recentFiles.getD [] }
      (cfg.windows.getD []) with
  | error e => simp [MainApp.unmarshall, hw] at h
  | ok app2 =>
      by_cases h0 : app2.mainWindows.length = 0
      · simp only [MainApp.unmarshall, hw, h0, if_true] at h
        obtain ⟨w, hw1, _⟩ := addNewMainWindow_ok h
        rw [hw1]
        simp
      · simp only [MainApp.unmarshall, hw, h0, if_false] at h
        cases Except.ok.inj h
        omega

/-- Equality of the optional windows mappings as finite maps: the same
lookup for every key.  (`json.dumps(..., sort_keys=True)` may reorder
the keys of the persisted object; the spec treats `windows` as a mapping
whose insertion order is irrelevant.) -/
def windowsMapEq : Option (List (String × WinCfg)) → Option (List (String × WinCfg)) → Prop
  | none, none => True
  | some l1, some l2 => ∀ k, l1.lookup k = l2.lookup k
  | _, _ => False

/-- Record equality up to reordering of the windows mapping. -/
def Cfg.mapEq (c1 c2 : Cfg) : Prop :=
  c1.program = c2.program ∧ c1.version = c2.version ∧
  c1.recentFiles = c2.recentFiles ∧ windowsMapEq c1.windows c2.windows

/-- Record equality in all fields except the version stamp, the windows
mappings compared as maps. -/
def Cfg.eqExceptVersion (c1 c2 : Cfg) : Prop :=
  c1.program = c2.program ∧ c1.recentFiles = c2.recentFiles ∧
  windowsMapEq c1.windows c2.windows

/-- The function `_makeConfigBackup` returns the record unchanged in every path. -/
theorem makeConfigBackup_fst (sf fc : String) (cfg : Cfg) :
    (MainApp.makeConfigBackup sf fc cfg).1 = cfg := by
  unfold MainApp.makeConfigBackup
  split
  · rfl
  · dsimp only
    split <;> rfl

/-! ### The claims -/

/-- C1: if the settings file exists but its content cannot be parsed as
JSON, `loadSettings` re-raises the parse error to its caller; it does
not swallow the error and continue with an empty configuration. -/
theorem C1_corrupt_settings_fatal (app : MainApp) (p s e : String)
    (parseJson : String → Except String Cfg)
    (hfile : app.settingsFile = some p) (hne : s ≠ "")
    (hparse : parseJson s = Except.error e) :
    app.loadSettings (some s) parseJson = Except.error e := by
  simp [MainApp.loadSettings, hfile, hne, hparse]

theorem C1_witness :
    (MainApp.init (some "settings.json")).settingsFile = some "settings.json" ∧
    ("not json" : String) ≠ "" ∧
    (MainApp.init (some "settings.json")).loadSettings (some "not json")
      (fun _ => Except.error "Expecting value") = Except.error "Expecting value" :=
  ⟨rfl, by decide,
    C1_corrupt_settings_fatal (MainApp.init (some "settings.json")) "settings.json"
      "not json" "Expecting value" (fun _ => Except.error "Expecting value")
      rfl (by decide) rfl⟩

/-- C3 counterexample: with the settings file absent, `loadSettings`
does not proceed with an empty configuration — the `open()` call raises
`FileNotFoundError`, which the handler logs and re-raises. -/
theorem C3_counterexample :
    (MainApp.init (some "settings.json")).loadSettings none
      (fun _ => Except.ok Cfg.empty) = Except.error "FileNotFoundError" := rfl

/-- C3 (amended): an absent settings file is fatal — the warning is
logged but the subsequent `open()` raises and the error is re-raised.
The warning-and-empty-record behaviour belongs to the file that exists
with empty content: then the configuration is `{}`, no backup is made,
and the application proceeds with one default window. -/
theorem C3_absent_file_raises (p : String) (parseJson : String → Except String Cfg) :
    (MainApp.init (some p)).loadSettings none parseJson =
      Except.error "FileNotFoundError" ∧
    (MainApp.init (some p)).loadSettings (some "") parseJson =
      Except.ok ({ MainApp.init (some p) with
                   mainWindows := [MainWindow.new 0]
                   numInstances := 1 }, none) :=
  ⟨rfl, rfl⟩

/-- C4: loading a record with an empty (or absent) windows mapping into
an application with no windows leaves exactly one window; more
generally, any successful `unmarshall`/`loadSettings` leaves at least
one window. -/
theorem C4_default_window :
    (∀ (app : MainApp) (cfg : Cfg) (app' : MainApp),
      app.mainWindows = [] → (cfg.windows = none ∨ cfg.windows = some []) →
      app.unmarshall cfg = Except.ok app' → app'.mainWindows.length = 1) ∧
    (∀ (app app' : MainApp) (fc : Option String)
      (parseJson : String → Except String Cfg) (b : Option BackupAction),
      app.loadSettings fc parseJson = Except.ok (app', b) →
      1 ≤ app'.mainWindows.length) := by
  constructor
  · intro app cfg app' hempty hor h
    have hg : cfg.windows.getD [] = [] := by
      rcases hor with h1 | h1 <;> simp [h1]
    simp only [MainApp.unmarshall, hg, MainApp.unmarshallWindows, hempty,
      List.length_nil, if_true] at h
    rw [addNewMainWindow_none] at h
    cases Except.ok.inj h
    simp [hempty]
  · intro app app' fc parseJson b h
    cases hsf : app.settingsFile with
    | none => simp [MainApp.loadSettings, hsf] at h
    | some p =>
        cases fc with
        | none => simp [MainApp.loadSettings, hsf] at h
        | some s =>
            cases hp : (if s ≠ "" then parseJson s else Except.ok Cfg.empty) with
            | error e => simp [MainApp.loadSettings, hsf, hp] at h
            | ok cfg0 =>
                cases hu : app.unmarshall (MainApp.makeConfigBackup p s cfg0).1 with
                | error e => simp [MainApp.loadSettings, hsf, hp, hu] at h
                | ok app2 =>
                    have hlen := unmarshall_ok_nonempty hu
                    simp only [MainApp.loadSettings, hsf, hp, hu, Except.ok.injEq,
                      Prod.mk.injEq] at h
                    rw [← h.1]
                    exact hlen

theorem C4_witness :
    ({ MainApp.init (some "s") with
       mainWindows := [MainWindow.new 0]
       numInstances := 1 }).mainWindows.length = 1 ∧
    1 ≤ ({ MainApp.init (some "s") with
           mainWindows := [MainWindow.new 0]
           numInstances := 1 }).mainWindows.length :=
  ⟨C4_default_window.1 (MainApp.init (some "s")) Cfg.empty
      ({ MainApp.init (some "s") with
         mainWindows := [MainWindow.new 0]
         numInstances := 1 }) rfl (Or.inl rfl) rfl,
   C4_default_window.2 (MainApp.init (some "s"))
      ({ MainApp.init (some "s") with
         mainWindows := [MainWindow.new 0]
         numInstances := 1 }) (some "") (fun _ => Except.ok Cfg.empty) none rfl⟩

/-- C2: saving a valid record `R` (unmarshall `R` into a fresh
application state, then `saveSettings`) writes `dumps` of the
re-marshalled state; parsing the written text back (the record
reconstruction step of `loadSettings`) yields a record `Rr` equal to `R`
in all fields except the version stamp, which is overwritten with the
running `VERSION`.  `dumpsStr`/`parseJson` are the external JSON
serializer; `hparse`/`hfaithful` are its round-trip contract at the
written record (faithful up to the key reordering of `sort_keys=True`,
hence the mapping comparison). -/
theorem C2_round_trip (p : String) (R Rr : Cfg) (app1 : MainApp)
    (dumpsStr : Cfg → String) (parseJson : String → Except String Cfg)
    (hvalid : validCfg R)
    (hunm : (MainApp.init (some p)).unmarshall R = Except.ok app1)
    (hparse : parseJson (dumpsStr app1.marshall) = Except.ok Rr)
    (hfaithful : Cfg.mapEq Rr app1.marshall) :
    app1.saveSettings false (fun c => Except.ok (dumpsStr c)) (fun _ _ => Except.ok ()) =
      ({ app1 with settingsSaved := true },
        Except.ok (SaveOutcome.written p (dumpsStr app1.marshall))) ∧
    Cfg.eqExceptVersion Rr R := by
  obtain ⟨app1', hunm', hmar, hsf⟩ := unmarshall_valid R (some p) hvalid
  rw [hunm] at hunm'
  cases Except.ok.inj hunm'
  refine ⟨?_, ?_⟩
  · simp [MainApp.saveSettings, hsf]
  · obtain ⟨e1, _, e3, e4⟩ := hfaithful
    have hprog : app1.marshall.program = some PROJECT_NAME := by rw [hmar]
    have hrf : app1.marshall.recentFiles = R.recentFiles := by rw [hmar]
    have hwin : app1.marshall.windows = R.windows := by rw [hmar]
    refine ⟨?_, e3.trans hrf, ?_⟩
    · rw [e1, hprog, hvalid.1]
    · rw [hwin] at e4
      exact e4

def C2cfg : Cfg :=
  ⟨some PROJECT_NAME, some "0.0.9", some [⟨"1700000000.0", "/tmp/a.docx"⟩],
   some [("win-0", ⟨some ⟨some (b64encode [1, 2, 3]), some (b64encode [])⟩,
          some "/home/user"⟩)]⟩

def C2app : MainApp :=
  ⟨some "settings.json", [⟨0, [1, 2, 3], [], "/home/user"⟩], false,
   [⟨"1700000000.0", "/tmp/a.docx"⟩], 10, 1⟩

theorem C2_witness :
    C2app.saveSettings false (fun _ => Except.ok "dump") (fun _ _ => Except.ok ()) =
      ({ C2app with settingsSaved := true },
        Except.ok (SaveOutcome.written "settings.json" "dump")) ∧
    Cfg.eqExceptVersion C2app.marshall C2cfg := by
  have hvalid : validCfg C2cfg := by
    refine ⟨rfl, rfl, _, rfl, by decide, ?_, ?_⟩
    · intro i hi
      have hi0 : i = 0 := by
        simp only [C2cfg, List.length_cons, List.length_nil] at hi
        omega
      subst hi0
      rfl
    · intro q hq
      have hq' : q = ("win-0", ⟨some ⟨some (b64encode [1, 2, 3]), some (b64encode [])⟩,
          some "/home/user"⟩) := by
        simpa [C2cfg] using hq
      subst hq'
      exact ⟨[1, 2, 3], [], "/home/user", by decide, by decide, rfl⟩
  have hunm : (MainApp.init (some "settings.json")).unmarshall C2cfg = Except.ok C2app := by
    rfl
  exact C2_round_trip "settings.json" C2cfg C2app.marshall C2app (fun _ => "dump")
    (fun _ => Except.ok C2app.marshall) hvalid hunm rfl
    ⟨rfl, rfl, rfl, fun _ => rfl⟩

/-! ### C5: the recent-files bound -/

theorem take_append_take {α : Type} (a b : List α) (m : Nat) :
    (a ++ b.take m).take m = (a ++ b).take m := by
  rw [List.take_append_eq_append_take, List.take_append_eq_append_take, List.take_take]
  have hmin : min (m - a.length) m = m - a.length :=
    Nat.min_eq_left (Nat.sub_le m a.length)
  rw [hmin]

/-- Folding inserts over a bounded list keeps the newest entries, newest
first, truncated to the bound. -/
theorem foldl_addToRecentFiles (es : List RecentEntry) :
    ∀ app : MainApp, app.recentFiles.length ≤ app.maxRecentFiles →
    (es.foldl MainApp.addToRecentFiles app).recentFiles =
      (es.reverse ++ app.recentFiles).take app.maxRecentFiles ∧
    (es.foldl MainApp.addToRecentFiles app).maxRecentFiles = app.maxRecentFiles := by
  induction es with
  | nil =>
      intro app h
      exact ⟨(List.take_of_length_le h).symm, rfl⟩
  | cons e rest ih =>
      intro app h
      have hlen : (app.addToRecentFiles e).recentFiles.length ≤
          (app.addToRecentFiles e).maxRecentFiles := by
        simp only [MainApp.addToRecentFiles, List.length_take]
        exact Nat.min_le_left _ _
      obtain ⟨h1, h2⟩ := ih (app.addToRecentFiles e) hlen
      constructor
      · rw [List.foldl_cons, h1]
        simp only [MainApp.addToRecentFiles]
        rw [take_append_take, List.reverse_cons, List.append_assoc,
          List.singleton_append]
      · rw [List.foldl_cons, h2]
        rfl

/-- C5 counterexample input: a persisted record with eleven
recent-files entries. -/
def C5cfg : Cfg :=
  ⟨none, none,
   some [⟨"t1", "f1"⟩, ⟨"t2", "f2"⟩, ⟨"t3", "f3"⟩, ⟨"t4", "f4"⟩, ⟨"t5", "f5"⟩,
         ⟨"t6", "f6"⟩, ⟨"t7", "f7"⟩, ⟨"t8", "f8"⟩, ⟨"t9", "f9"⟩, ⟨"t10", "f10"⟩,
         ⟨"t11", "f11"⟩],
   none⟩

/-- C5 counterexample: `unmarshall` restores the persisted recent-files
list verbatim, so the in-memory list of an application configured with
`maxRecentFiles = 10` holds eleven entries after loading this record —
the bound does not survive every operation. -/
theorem C5_counterexample :
    ((MainApp.init (some "settings.json")).unmarshall C5cfg).map
        (fun a => (a.recentFiles.length, a.maxRecentFiles)) =
      Except.ok (11, 10) := rfl

/-- C5 (amended): the modelled insert operation `addToRecentFiles` keeps
the list within `maxRecentFiles`; folding eleven inserts into an empty
list bounded by 10 leaves exactly the ten most recently inserted
entries, most recent first.  (`unmarshall`, by contrast, restores a
persisted list verbatim without truncation.) -/
theorem C5_recent_files_bound :
    (∀ (app : MainApp) (e : RecentEntry),
      (app.addToRecentFiles e).recentFiles.length ≤ app.maxRecentFiles) ∧
    (∀ (app : MainApp) (es : List RecentEntry),
      app.recentFiles = [] → app.maxRecentFiles = 10 → es.length = 11 →
      (es.foldl MainApp.addToRecentFiles app).recentFiles = es.reverse.take 10 ∧
      (es.foldl MainApp.addToRecentFiles app).recentFiles.length = 10) := by
  constructor
  · intro app e
    simp only [MainApp.addToRecentFiles, List.length_take]
    exact Nat.min_le_left _ _
  · intro app es h0 hm hlen
    have h : app.recentFiles.length ≤ app.maxRecentFiles := by
      rw [h0, hm]; simp
    obtain ⟨h1, _⟩ := foldl_addToRecentFiles es app h
    rw [h0, hm, List.append_nil] at h1
    refine ⟨h1, ?_⟩
    rw [h1, List.length_take, List.length_reverse, hlen]
    omega

theorem C5_witness :
    ((MainApp.init none).addToRecentFiles ⟨"t", "f"⟩).recentFiles.length ≤
      (MainApp.init none).maxRecentFiles ∧
    (((List.range 11).map (fun i => (⟨toString i, toString i⟩ : RecentEntry))).foldl
        MainApp.addToRecentFiles (MainApp.init none)).recentFiles =
      ((List.range 11).map (fun i => (⟨toString i, toString i⟩ : RecentEntry))).reverse.take 10 :=
  ⟨C5_recent_files_bound.1 (MainApp.init none) ⟨"t", "f"⟩,
   (C5_recent_files_bound.2 (MainApp.init none)
      ((List.range 11).map (fun i => (⟨toString i, toString i⟩ : RecentEntry)))
      rfl rfl rfl).1⟩

/-! ### C6: backup on version change -/

/-- C6 counterexample: a settings file containing `{}` loads as the
empty record, whose format version defaults to `"0.0.1"` and differs
from the running `"0.1.0"` — yet no backup is made (`_makeConfigBackup`
returns early on an empty record), contradicting the claim that a
differing (defaulted) version always produces a backup. -/
theorem C6_counterexample :
    MainApp.makeConfigBackup "settings.json" "\x7b\x7d" Cfg.empty = (Cfg.empty, none) ∧
    Cfg.empty.version.getD "0.0.1" ≠ VERSION ∧
    (MainApp.init (some "settings.json")).loadSettings (some "\x7b\x7d")
        (fun _ => Except.ok Cfg.empty) =
      Except.ok ({ MainApp.init (some "settings.json") with
                   mainWindows := [MainWindow.new 0]
                   numInstances := 1 }, none) :=
  ⟨rfl, by decide, rfl⟩

/-- C6 (amended): for a non-empty loaded record whose format version
(defaulting to `"0.0.1"` when absent) differs from the running version,
`loadSettings` copies the settings file's current content byte-for-byte
to `<path>.v<oldVersion>.backup` before unmarshalling, and the record is
used unchanged (no field migration); an empty record produces no backup
even though its defaulted version differs. -/
theorem C6_version_backup :
    (∀ (sf fc : String) (cfg : Cfg), cfg.isTruthy = true →
      cfg.version.getD "0.0.1" ≠ VERSION →
      MainApp.makeConfigBackup sf fc cfg =
        (cfg, some ⟨sf ++ ".v" ++ cfg.version.getD "0.0.1" ++ ".backup", fc⟩)) ∧
    (∀ (sf fc : String) (cfg : Cfg), cfg.version.getD "0.0.1" = VERSION →
      MainApp.makeConfigBackup sf fc cfg = (cfg, none)) ∧
    (∀ (app app' : MainApp) (p s : String) (cfg : Cfg)
      (parseJson : String → Except String Cfg),
      app.settingsFile = some p → s ≠ "" → parseJson s = Except.ok cfg →
      cfg.isTruthy = true → cfg.version.getD "0.0.1" ≠ VERSION →
      app.unmarshall cfg = Except.ok app' →
      app.loadSettings (some s) parseJson =
        Except.ok (app', some ⟨p ++ ".v" ++ cfg.version.getD "0.0.1" ++ ".backup", s⟩)) := by
  refine ⟨?_, ?_, ?_⟩
  · intro sf fc cfg ht hv
    simp [MainApp.makeConfigBackup, ht, hv]
  · intro sf fc cfg hv
    by_cases ht : cfg.isTruthy
    · simp [MainApp.makeConfigBackup, ht, hv]
    · simp [MainApp.makeConfigBackup, ht]
  · intro app app' p s cfg parseJson hsf hne hp ht hv hu
    have hb : MainApp.makeConfigBackup p s cfg =
        (cfg, some ⟨p ++ ".v" ++ cfg.version.getD "0.0.1" ++ ".backup", s⟩) := by
      simp [MainApp.makeConfigBackup, ht, hv]
    simp [MainApp.loadSettings, hsf, hne, hp, hb, hu]

def C6cfg : Cfg := ⟨some PROJECT_NAME, some "0.0.1", some [], some [("win-0", ⟨none, none⟩)]⟩

theorem C6_witness :
    MainApp.makeConfigBackup "settings.json" "filecontent" C6cfg =
      (C6cfg, some ⟨"settings.json" ++ ".v" ++ "0.0.1" ++ ".backup", "filecontent"⟩) ∧
    MainApp.makeConfigBackup "settings.json" "filecontent"
        ⟨none, some VERSION, none, none⟩ = (⟨none, some VERSION, none, none⟩, none) ∧
    (MainApp.init (some "settings.json")).loadSettings (some "filecontent")
        (fun _ => Except.ok C6cfg) =
      Except.ok ({ MainApp.init (some "settings.json") with
                   mainWindows := [MainWindow.new 0]
                   numInstances := 1 },
        some ⟨"settings.json" ++ ".v" ++ "0.0.1" ++ ".backup", "filecontent"⟩) :=
  ⟨C6_version_backup.1 "settings.json" "filecontent" C6cfg rfl (by decide),
   C6_version_backup.2.1 "settings.json" "filecontent" ⟨none, some VERSION, none, none⟩ rfl,
   C6_version_backup.2.2 (MainApp.init (some "settings.json"))
      ({ MainApp.init (some "settings.json") with
         mainWindows := [MainWindow.new 0]
         numInstances := 1 }) "settings.json" "filecontent" C6cfg
      (fun _ => Except.ok C6cfg) rfl (by decide) rfl rfl (by decide) rfl⟩

/-! ### C7: window numbering and the keys written by marshall -/

/-- A two-window state, as produced by two `addNewMainWindow` calls on a
fresh application: instance numbers 0 and 1. -/
def C7app : MainApp :=
  { MainApp.init (some "settings.json") with
    mainWindows := [MainWindow.new 0, MainWindow.new 1]
    numInstances := 2 }

/-- C7 counterexample: create two windows, close the first (instance
number 0), and marshall.  The surviving window has stable instance
number 1, but `marshall` keys its record `"win-0"` — the key is the
position in the current list, not the window's stable index, so a key is
reused after a window closes. -/
theorem C7_counterexample :
    (MainApp.init (some "settings.json")).addNewMainWindow none =
      Except.ok { MainApp.init (some "settings.json") with
                  mainWindows := [MainWindow.new 0]
                  numInstances := 1 } ∧
    ({ MainApp.init (some "settings.json") with
       mainWindows := [MainWindow.new 0]
       numInstances := 1 } : MainApp).addNewMainWindow none = Except.ok C7app ∧
    (C7app.removeMainWindow (MainWindow.new 0)).marshall.windows =
      some [("win-0", (MainWindow.new 1).marshall)] ∧
    (MainWindow.new 1).windowNumber = 1 ∧
    ("win-0" : String) ≠ "win-" ++ toString (MainWindow.new 1).windowNumber :=
  ⟨rfl, rfl, rfl, rfl, by decide⟩

/-- The invariant that does hold of the instance numbers: strictly
increasing along the window list, all below the class counter. -/
def MainApp.windowNumbersOK (app : MainApp) : Prop :=
  (app.mainWindows.map MainWindow.windowNumber).Pairwise (· < ·) ∧
  ∀ w ∈ app.mainWindows, w.windowNumber < app.numInstances

theorem marshallWindows_keys : ∀ (k : Nat) (l : List MainWindow),
    (MainApp.marshallWindows k l).map Prod.fst =
      (List.range l.length).map (fun i => "win-" ++ toString (k + i)) := by
  intro k l
  induction l generalizing k with
  | nil => rfl
  | cons w rest ih =>
      simp only [MainApp.marshallWindows, List.map_cons, List.length_cons,
        List.range_succ_eq_map, List.map_map]
      congr 1
      · rw [ih (k + 1)]
        apply List.map_congr_left
        intro i _
        simp only [Function.comp]
        rw [show k + 1 + i = k + (i + 1) by omega]

/-- C7 (amended): window instance numbers are assigned at creation from
a monotonically increasing process-lifetime counter starting at 0 and
are never reused after a window closes (they stay strictly increasing
along the list and below the counter); but `marshall` keys each window
record by its current position in the open-window list — `win-0` …
`win-(n-1)` — not by the window's stable instance number, so the two
agree only while no window has been closed. -/
theorem C7_window_numbers :
    (∀ sf, (MainApp.init sf).windowNumbersOK) ∧
    (∀ (app app' : MainApp) (cfg : Option WinCfg),
      app.windowNumbersOK → app.addNewMainWindow cfg = Except.ok app' →
      app'.windowNumbersOK ∧ ∃ w, app'.mainWindows = app.mainWindows ++ [w] ∧
        w.windowNumber = app.numInstances ∧ app'.numInstances = app.numInstances + 1) ∧
    (∀ (app : MainApp) (w : MainWindow),
      app.windowNumbersOK → (app.removeMainWindow w).windowNumbersOK) ∧
    (∀ app : MainApp, (app.marshall.windows.getD []).map Prod.fst =
      (List.range app.mainWindows.length).map (fun i => "win-" ++ toString i)) := by
  refine ⟨?_, ?_, ?_, ?_⟩
  · intro sf
    exact ⟨List.Pairwise.nil, by intro w hw; simp [MainApp.init] at hw⟩
  · intro app app' cfg hok hadd
    obtain ⟨w, hw1, hw2, _, _, _, _, hw7⟩ := addNewMainWindow_ok hadd
    obtain ⟨hpw, hbound⟩ := hok
    refine ⟨⟨?_, ?_⟩, w, hw1, hw7, hw2⟩
    · rw [hw1, List.map_append]
      rw [List.pairwise_append]
      refine ⟨hpw, List.pairwise_singleton _ _, ?_⟩
      intro a ha b hb
      simp only [List.map_cons, List.map_nil, List.mem_singleton] at hb
      subst hb
      obtain ⟨w', hw', rfl⟩ := List.mem_map.mp ha
      rw [hw7]
      exact hbound w' hw'
    · intro w' hw'
      rw [hw1] at hw'
      rw [hw2]
      rcases List.mem_append.mp hw' with h | h
      · exact Nat.lt_succ_of_lt (hbound w' h)
      · rw [List.mem_singleton.mp h, hw7]
        exact Nat.lt_succ_self _
  · intro app w hok
    obtain ⟨hpw, hbound⟩ := hok
    constructor
    · exact hpw.sublist ((app.mainWindows.erase_sublist w).map _)
    · intro w' hw'
      exact hbound w' (List.erase_subset w app.mainWindows hw')
  · intro app
    have := marshallWindows_keys 0 app.mainWindows
    simp only [MainApp.marshall, Option.getD_some]
    rw [this]
    apply List.map_congr_left
    intro i _
    rw [Nat.zero_add]

theorem C7_witness :
    (MainApp.init (some "s")).windowNumbersOK ∧
    C7app.windowNumbersOK ∧
    (C7app.removeMainWindow (MainWindow.new 0)).windowNumbersOK ∧
    (C7app.marshall.windows.getD []).map Prod.fst =
      (List.range C7app.mainWindows.length).map (fun i => "win-" ++ toString i) := by
  have h0 : (MainApp.init (some "s")).windowNumbersOK := C7_window_numbers.1 (some "s")
  have h1 : ({ MainApp.init (some "settings.json") with
               mainWindows := [MainWindow.new 0]
               numInstances := 1 } : MainApp).windowNumbersOK :=
    (C7_window_numbers.2.1 (MainApp.init (some "settings.json")) _ none
      (C7_window_numbers.1 (some "settings.json")) rfl).1
  have h2 : C7app.windowNumbersOK :=
    (C7_window_numbers.2.1 _ C7app none h1 rfl).1
  exact ⟨h0, h2, C7_window_numbers.2.2.1 C7app (MainWindow.new 0) h2,
    C7_window_numbers.2.2.2 C7app⟩

/-! ### C8: the window-key assertion -/

/-- C8 counterexample: the key `"win-xyz"` does not match `win-<N>` for
any non-negative integer N, yet the assertion only checks the prefix
`"win-"`, so `unmarshall` accepts the record and creates a window
instead of failing with an `InvariantViolation`. -/
theorem C8_counterexample :
    ((MainApp.init (some "settings.json")).unmarshall
        ⟨none, none, none, some [("win-xyz", ⟨none, none⟩)]⟩).map
      (fun a => a.mainWindows.length) = Except.ok 1 ∧
    strStartsWith "win-xyz" "win-" = true :=
  ⟨rfl, rfl⟩

/-- C8 (amended): a key that does not start with the prefix `"win-"` is
a fatal `AssertionError`; any key starting with `"win-"` passes the
assertion (the numeric suffix is not validated), and a successful loop
creates exactly one window per entry (a window record that is an empty
dict is accepted without calling the window's `unmarshall`). -/
theorem C8_key_check :
    (∀ (app : MainApp) (winId : String) (winCfg : WinCfg)
      (rest : List (String × WinCfg)), strStartsWith winId "win-" = false →
      MainApp.unmarshallWindows app ((winId, winCfg) :: rest) =
        Except.error ("Win ID doesn't start with 'win-': " ++ winId)) ∧
    (∀ (app app' : MainApp) (l : List (String × WinCfg)),
      MainApp.unmarshallWindows app l = Except.ok app' →
      app'.mainWindows.length = app.mainWindows.length + l.length) ∧
    (∀ (app : MainApp) (l : List (String × WinCfg)),
      (∀ p ∈ l, strStartsWith p.1 "win-" = true ∧ p.2.isTruthy = false) →
      ∃ app', MainApp.unmarshallWindows app l = Except.ok app') := by
  refine ⟨?_, ?_, ?_⟩
  · intro app winId winCfg rest hs
    simp [MainApp.unmarshallWindows, hs]
  · intro app app' l h
    exact (unmarshallWindows_ok h).2.2.2.2
  · intro app l
    induction l generalizing app with
    | nil =>
        intro _
        exact ⟨app, rfl⟩
    | cons p rest ih =>
        intro hall
        obtain ⟨winId, c⟩ := p
        obtain ⟨hs, hc⟩ := hall (winId, c) (by simp)
        have hadd : app.addNewMainWindow (some c) =
            Except.ok { app with
                        numInstances := app.numInstances + 1
                        mainWindows := app.mainWindows ++ [MainWindow.new app.numInstances] } := by
          simp [MainApp.addNewMainWindow, hc]
        obtain ⟨app', happ'⟩ := ih
          { app with
            numInstances := app.numInstances + 1
            mainWindows := app.mainWindows ++ [MainWindow.new app.numInstances] }
          (fun q hq => hall q (by simp [hq]))
        refine ⟨app', ?_⟩
        simp [MainApp.unmarshallWindows, hs, hadd, happ']

theorem C8_witness :
    MainApp.unmarshallWindows (MainApp.init (some "s")) [("window0", ⟨none, none⟩)] =
      Except.error ("Win ID doesn't start with 'win-': " ++ "window0") ∧
    ({ MainApp.init (some "s") with
       mainWindows := [MainWindow.new 0]
       numInstances := 1 } : MainApp).mainWindows.length =
      (MainApp.init (some "s")).mainWindows.length + [("win-7", (⟨none, none⟩ : WinCfg))].length ∧
    ∃ app', MainApp.unmarshallWindows (MainApp.init (some "s"))
      [("win-7", ⟨none, none⟩)] = Except.ok app' := by
  refine ⟨?_, ?_, ?_⟩
  · exact C8_key_check.1 (MainApp.init (some "s")) "window0" ⟨none, none⟩ [] (by decide)
  · exact C8_key_check.2.1 (MainApp.init (some "s")) _ [("win-7", ⟨none, none⟩)] rfl
  · exact C8_key_check.2.2 (MainApp.init (some "s")) [("win-7", ⟨none, none⟩)]
      (by
        intro q hq
        simp only [List.mem_singleton] at hq
        subst hq
        exact ⟨by decide, rfl⟩)

/-! ### C9: partial window records and decode failures -/

/-- C9 counterexample input: a window record whose geometry blob is the
malformed base64 text `"A"` (one data character cannot be decoded;
Python's `base64.b64decode` raises `binascii.Error`). -/
def C9cfg : WinCfg := ⟨some ⟨some "A", none⟩, some "/tmp/dir"⟩

/-- C9 counterexample: the decode failure is not caught — it propagates
out of the window's `unmarshall` (so the `fileDialogDir` restoration is
skipped) and further out of `MainApp.unmarshall`, instead of being
logged and skipped. -/
theorem C9_counterexample :
    (MainWindow.new 0).unmarshall C9cfg = Except.error "Incorrect padding" ∧
    (MainApp.init (some "settings.json")).unmarshall
        ⟨none, none, none, some [("win-0", C9cfg)]⟩ =
      Except.error "Incorrect padding" :=
  ⟨rfl, rfl⟩

/-- C9 (amended): fields absent from a window record leave the window's
geometry/state at the values it already has (its toolkit defaults for a
fresh window), and a record with a valid geometry blob but no state blob
restores only the geometry; but a base64 decode failure raises to the
caller — no warning-and-skip, and the remaining fields of that record
are not restored. -/
theorem C9_partial_window_records :
    (∀ (w : MainWindow) (c : WinCfg), c.layout = none →
      w.unmarshall c =
        Except.ok { w with fileDialogDir := c.fileDialogDir.getD DEFAULT_FILE_DIR }) ∧
    (∀ (w : MainWindow) (gb : List Nat) (d : Option String), (∀ b ∈ gb, b < 256) →
      w.unmarshall ⟨some ⟨some (b64encode gb), none⟩, d⟩ =
        Except.ok { w with
                    geomBlob := gb
                    fileDialogDir := d.getD DEFAULT_FILE_DIR }) ∧
    (∀ (w : MainWindow) (lay : LayoutCfg) (d : Option String) (s e : String),
      lay.winGeom = some s → b64decode s = Except.error e →
      w.unmarshall ⟨some lay, d⟩ = Except.error e) := by
  refine ⟨?_, ?_, ?_⟩
  · intro w c hlay
    simp [MainWindow.unmarshall, MainWindow.restoreGeomStep, MainWindow.restoreStateStep,
      hlay]
  · intro w gb d hgb
    simp [MainWindow.unmarshall, MainWindow.restoreGeomStep, MainWindow.restoreStateStep,
      b64decode_b64encode gb hgb]
  · intro w lay d s e hg hd
    simp [MainWindow.unmarshall, MainWindow.restoreGeomStep, hg, hd]

theorem C9_witness :
    (MainWindow.new 3).unmarshall ⟨none, some "/data"⟩ =
      Except.ok { MainWindow.new 3 with fileDialogDir := "/data" } ∧
    (MainWindow.new 4).unmarshall ⟨some ⟨some (b64encode [9, 8]), none⟩, none⟩ =
      Except.ok { MainWindow.new 4 with
                  geomBlob := [9, 8]
                  fileDialogDir := DEFAULT_FILE_DIR } ∧
    (MainWindow.new 5).unmarshall ⟨some ⟨some "A", none⟩, some "/x"⟩ =
      Except.error "Incorrect padding" :=
  ⟨C9_partial_window_records.1 (MainWindow.new 3) ⟨none, some "/data"⟩ rfl,
   C9_partial_window_records.2.1 (MainWindow.new 4) [9, 8] none (by decide),
   C9_partial_window_records.2.2 (MainWindow.new 5) ⟨some "A", none⟩ (some "/x")
     "A" "Incorrect padding" rfl rfl⟩

/-! ### C10: the save-once flag -/

theorem saveSettings_sets_flag (app : MainApp) (dbg : Bool)
    (dumps : Cfg → Except String String) (write : String → String → Except String Unit) :
    ((app.saveSettings dbg dumps write).1).settingsSaved = true := rfl

theorem saveSettingsIfLastWindow_skip {app : MainApp} (dbg : Bool)
    (dumps : Cfg → Except String String) (write : String → String → Except String Unit)
    (h : app.settingsSaved = true) :
    app.saveSettingsIfLastWindow dbg dumps write = (app, Except.ok none) := by
  simp [MainApp.saveSettingsIfLastWindow, h]

theorem removeMainWindow_settingsSaved (app : MainApp) (w : MainWindow) :
    (app.removeMainWindow w).settingsSaved = app.settingsSaved := rfl

/-- Once the flag is set, every event preserves it and no event saves
through the last-window path. -/
theorem runOp_flag {app : MainApp} {dbg : Bool}
    {dumps : Cfg → Except String String} {write : String → String → Except String Unit}
    (op : AppOp) (h : app.settingsSaved = true) :
    ((app.runOp dbg dumps write op).1).settingsSaved = true ∧
    (app.runOp dbg dumps write op).2 = 0 := by
  cases op with
  | addWindow cfg =>
      cases ha : app.addNewMainWindow cfg with
      | ok app1 =>
          obtain ⟨_, _, _, _, hsv, _, _, _⟩ := addNewMainWindow_ok ha
          exact ⟨by simp only [MainApp.runOp, ha]; rw [hsv, h], rfl⟩
      | error e => exact ⟨by simp only [MainApp.runOp, ha]; exact h, rfl⟩
  | closeWindow =>
      cases hw : app.mainWindows with
      | nil => exact ⟨by simp only [MainApp.runOp, hw]; exact h, by simp [MainApp.runOp, hw]⟩
      | cons w rest =>
          have hskip := @saveSettingsIfLastWindow_skip app dbg dumps write h
          have hcond : ¬ (¬ app.settingsSaved = true ∧ (w :: rest).length ≤ 1) :=
            fun hca => hca.1 h
          constructor
          · simp only [MainApp.runOp, hw]
            rw [hskip]
            exact h
          · simp only [MainApp.runOp, hw]
            rw [if_neg hcond]
  | quit => exact ⟨rfl, rfl⟩

theorem runOps_flag {dbg : Bool} {dumps : Cfg → Except String String}
    {write : String → String → Except String Unit} (ops : List AppOp) :
    ∀ {app : MainApp}, app.settingsSaved = true →
    (MainApp.runOps app dbg dumps write ops).2 = 0 := by
  induction ops with
  | nil => intro app _; rfl
  | cons op rest ih =>
      intro app h
      obtain ⟨h1, h2⟩ := runOp_flag op h
      simp only [MainApp.runOps]
      rw [h2, ih h1]

/-- Any single event performs at most one last-window save, and an event
that performs one leaves the flag set. -/
theorem runOp_count {app : MainApp} {dbg : Bool}
    {dumps : Cfg → Except String String} {write : String → String → Except String Unit}
    (op : AppOp) :
    (app.runOp dbg dumps write op).2 ≤ 1 ∧
    ((app.runOp dbg dumps write op).2 = 1 →
      ((app.runOp dbg dumps write op).1).settingsSaved = true) := by
  cases op with
  | addWindow cfg =>
      exact ⟨by simp [MainApp.runOp], by intro hc; simp [MainApp.runOp] at hc⟩
  | closeWindow =>
      cases hw : app.mainWindows with
      | nil =>
          exact ⟨by simp [MainApp.runOp, hw], by intro hc; simp [MainApp.runOp, hw] at hc⟩
      | cons w rest =>
          by_cases hcond : ¬ app.settingsSaved = true ∧ (w :: rest).length ≤ 1
          · have hcond2 : ¬ app.settingsSaved = true ∧ app.mainWindows.length ≤ 1 := by
              rw [hw]
              exact hcond
            constructor
            · simp only [MainApp.runOp, hw]
              rw [if_pos hcond]
            · intro _
              simp only [MainApp.runOp, hw, MainApp.saveSettingsIfLastWindow]
              rw [if_pos hcond]
              rfl
          · constructor
            · simp only [MainApp.runOp, hw]
              rw [if_neg hcond]
              exact Nat.zero_le 1
            · intro hc
              simp only [MainApp.runOp, hw] at hc
              rw [if_neg hcond] at hc
              exact absurd hc (by decide)
  | quit => exact ⟨by simp [MainApp.runOp], by intro hc; simp [MainApp.runOp] at hc⟩

theorem runOps_count {dbg : Bool} {dumps : Cfg → Except String String}
    {write : String → String → Except String Unit} (ops : List AppOp) :
    ∀ app : MainApp, (MainApp.runOps app dbg dumps write ops).2 ≤ 1 := by
  induction ops with
  | nil => intro app; exact Nat.zero_le 1
  | cons op rest ih =>
      intro app
      obtain ⟨hle, hone⟩ := @runOp_count app dbg dumps write op
      simp only [MainApp.runOps]
      by_cases h0 : (app.runOp dbg dumps write op).2 = 0
      · rw [h0]
        simpa using ih (app.runOp dbg dumps write op).1
      · have h1 : (app.runOp dbg dumps write op).2 = 1 := by omega
        rw [h1, runOps_flag rest (hone h1)]

/-- C10: every `saveSettings` call — whatever its outcome, including the
no-settings-file and failure paths — sets the already-saved flag (the
`finally` block), after which `saveSettingsIfLastWindow` never saves
again; consequently, over any sequence of UI events in a process
lifetime, at most one save is performed through the last-window-closing
path. -/
theorem C10_save_once :
    (∀ (app : MainApp) (dbg : Bool) (dumps : Cfg → Except String String)
      (write : String → String → Except String Unit),
      ((app.saveSettings dbg dumps write).1).settingsSaved = true) ∧
    (∀ (app : MainApp) (dbg : Bool) (dumps : Cfg → Except String String)
      (write : String → String → Except String Unit), app.settingsSaved = true →
      app.saveSettingsIfLastWindow dbg dumps write = (app, Except.ok none)) ∧
    (∀ (sf : Option String) (dbg : Bool) (dumps : Cfg → Except String String)
      (write : String → String → Except String Unit) (ops : List AppOp),
      (MainApp.runOps (MainApp.init sf) dbg dumps write ops).2 ≤ 1) :=
  ⟨fun app dbg dumps write => saveSettings_sets_flag app dbg dumps write,
   fun _ dbg dumps write h => saveSettingsIfLastWindow_skip dbg dumps write h,
   fun sf _ _ _ ops => runOps_count ops (MainApp.init sf)⟩

theorem C10_witness :
    (((MainApp.init none).saveSettings true (fun _ => Except.error "boom")
        (fun _ _ => Except.ok ())).1).settingsSaved = true ∧
    ({ MainApp.init (some "f") with settingsSaved := true } : MainApp).saveSettingsIfLastWindow
        false (fun _ => Except.ok "") (fun _ _ => Except.ok ()) =
      ({ MainApp.init (some "f") with settingsSaved := true }, Except.ok none) ∧
    (MainApp.runOps (MainApp.init (some "f")) false (fun _ => Except.ok "")
        (fun _ _ => Except.ok ())
        [AppOp.addWindow none, AppOp.closeWindow, AppOp.addWindow none,
         AppOp.closeWindow, AppOp.quit]).2 ≤ 1 :=
  ⟨C10_save_once.1 (MainApp.init none) true (fun _ => Except.error "boom")
      (fun _ _ => Except.ok ()),
   C10_save_once.2.1 ({ MainApp.init (some "f") with settingsSaved := true }) false
      (fun _ => Except.ok "") (fun _ _ => Except.ok ()) rfl,
   C10_save_once.2.2 (some "f") false (fun _ => Except.ok "") (fun _ _ => Except.ok ())
      [AppOp.addWindow none, AppOp.closeWindow, AppOp.addWindow none,
       AppOp.closeWindow, AppOp.quit]⟩
